import Mathlib

/-!
Shallow embedding of `boxes/generators/adjustableshelf.py` (class `AdjustableShelf`).

Dimensions are modelled as exact rationals.  Each call the generator makes to a
drawing primitive (`fingerHolesAt`, `rectangularHole`) is recorded as a `Cutout`
value, and each `rectangularWall` call is recorded as a `Panel` carrying its
size, edge string, placement directive and the cutouts its callback emits.
-/

/-- The numeric parameters the generator's initializer defines:
`sx`, `y`, `sh` from `buildArgParser`, `thickness` from the `Boxes` base,
and the two extra arguments `slop` and `attach`. -/
structure EnclosureSpec where
  sx : List ℚ
  y : ℚ
  sh : List ℚ
  thickness : ℚ
  slop : ℚ
  attach : ℚ
deriving DecidableEq

/-- One recorded drawing-primitive call: either `fingerHolesAt(x, y, length, angle)`
or `rectangularHole(x, y, dx, dy, center_x=...)`. -/
inductive Cutout where
  | fingerHoles (x y length angle : ℚ)
  | rectHole (x y dx dy : ℚ) (center_x : Bool)
deriving DecidableEq

/-- The x-coordinate argument of a recorded cutout. -/
def cutoutX : Cutout → ℚ
  | Cutout.fingerHoles x _ _ _ => x
  | Cutout.rectHole x _ _ _ _ => x

/-- One `rectangularWall(width, height, move=..., edges=..., callback=...)` call. -/
structure Panel where
  width : ℚ
  height : ℚ
  edges : String
  move : String
  cutouts : List Cutout
deriving DecidableEq

/-- Loop body of `create_back_wall_holes`: `pos += t+2*t+2*slop+w` then
`fingerHolesAt(pos, 0, h, angle=90)` for each `w` of the iterated list. -/
def backWallHolesGo (t slop h : ℚ) : ℚ → List ℚ → List Cutout
  | _, [] => []
  | pos, w :: ws =>
    Cutout.fingerHoles (pos + (t + 2*t + 2*slop + w)) 0 h 90 ::
      backWallHolesGo t slop h (pos + (t + 2*t + 2*slop + w)) ws

/-- `create_back_wall_holes(self, sx, sh, h, slop, t)`: starts at `pos = -t/2`
and iterates over `sx[:-1]`.  The `sh` argument is unused, as in the source. -/
def create_back_wall_holes (sx sh : List ℚ) (h slop t : ℚ) : List Cutout :=
  backWallHolesGo t slop h (-(t/2)) sx.dropLast

/-- Loop body of `slider_cutout`: `pos += h + t` then
`rectangularHole(0, pos-t/2, y-attach, t+slop, center_x=False)`. -/
def sliderCutGo (t y attach slop : ℚ) : ℚ → List ℚ → List Cutout
  | _, [] => []
  | pos, hgt :: hs =>
    Cutout.rectHole 0 (pos + hgt + t - t/2) (y - attach) (t + slop) false ::
      sliderCutGo t y attach slop (pos + hgt + t) hs

/-- `slider_cutout(self, sh, t, y, attach, slop)`: starts at `pos = 0` and
iterates over `sh[:-1]`. -/
def slider_cutout (sh : List ℚ) (t y attach slop : ℚ) : List Cutout :=
  sliderCutGo t y attach slop 0 sh.dropLast

/-- `shelf_cutout(self, x, slop)`: for `z in [0, x]` emits
`rectangularHole(y-attach, z, attach, t+slop, center_x=False)`, where `y`,
`attach` and `t` are read from the instance. -/
def shelf_cutout (y attach t x slop : ℚ) : List Cutout :=
  [Cutout.rectHole (y - attach) 0 attach (t + slop) false,
   Cutout.rectHole (y - attach) x attach (t + slop) false]

/-- `x = sum(sx) + 2*(t+slop) + (len(sx)-1)*(3*t+2*slop)` (stored as `self.inner_x`). -/
def inner_x (s : EnclosureSpec) : ℚ :=
  s.sx.sum + 2*(s.thickness + s.slop)
    + ((s.sx.length : ℚ) - 1)*(3*s.thickness + 2*s.slop)

/-- `h = sum(sh) + (len(sh)-1)*t` (stored as `self.inner_h`). -/
def inner_h (s : EnclosureSpec) : ℚ :=
  s.sh.sum + ((s.sh.length : ℚ) - 1)*s.thickness

/-- The shelf panel emitted for one width value `v` of `sx`:
`w = x+2*t-2*slop`; `rectangularWall(y, w, move="up", edges="eeee",
callback=[partial(shelf_cutout, w, slop)])`. -/
def shelfTemplate (s : EnclosureSpec) (v : ℚ) : Panel :=
  { width := s.y, height := v + 2*s.thickness - 2*s.slop, edges := "eeee",
    move := "up",
    cutouts := shelf_cutout s.y s.attach s.thickness
      (v + 2*s.thickness - 2*s.slop) s.slop }

/-- The shelf loop of `create_outer_box`: walks `sx` keeping the dict `sizes`
of widths already seen (here the list `seen`), and emits one `shelfTemplate`
for each width not seen before. -/
def shelfPanels (s : EnclosureSpec) : List ℚ → List ℚ → List Panel
  | [], _ => []
  | v :: vs, seen =>
    if v ∈ seen then shelfPanels s vs seen
    else shelfTemplate s v :: shelfPanels s vs (v :: seen)

/-- `create_outer_box`: the full panel emission sequence — left wall, back
wall, right wall, top, bottom, the `len(sx)-1` inner divider walls, the
`2+(len(sx)-1)*2` slider walls, and one sample shelf per distinct width.
Python's `range(n)` of a negative count is empty, so the slider count is
computed in ℤ and clamped with `toNat` (at `sx = []` it is `range(0)`), and
the divider count `range(len(sx)-1)` is ℕ subtraction, empty at `sx = []`
exactly like `range(-1)`. -/
def create_outer_box (s : EnclosureSpec) : List Panel :=
  [ { width := s.y, height := inner_h s, edges := "FFFe", move := "right",
      cutouts := [] },
    { width := inner_x s, height := inner_h s, edges := "ffff", move := "right",
      cutouts := create_back_wall_holes s.sx s.sh (inner_h s) s.slop s.thickness },
    { width := s.y, height := inner_h s, edges := "FeFF", move := "up",
      cutouts := [] },
    { width := inner_x s, height := s.y, edges := "Ffef", move := "left up",
      cutouts := create_back_wall_holes s.sx s.sh s.y s.slop s.thickness },
    { width := inner_x s, height := s.y, edges := "efFf", move := "up",
      cutouts := create_back_wall_holes s.sx s.sh s.y s.slop s.thickness } ]
  ++ (List.range (s.sx.length - 1)).map (fun i =>
      { width := s.y, height := inner_h s, edges := "fffe",
        move := if i = 0 then "left right" else "right", cutouts := [] })
  ++ (List.range (2 + ((s.sx.length : ℤ) - 1)*2).toNat).map (fun _ =>
      { width := s.y, height := inner_h s, edges := "eeee", move := "right",
        cutouts := slider_cutout s.sh s.thickness s.y s.attach s.slop })
  ++ shelfPanels s s.sx []

/-- `render(self)`: its body is the single call `self.create_outer_box()`. -/
def render (s : EnclosureSpec) : List Panel := create_outer_box s

/-- Attribute names defined on the generator instance by its initializer.
Modelled from the spec: the `Boxes` base class is not part of the sources
here; the spec's interface section lists the parameter fields as exactly
`sx`, `y`, `sh`, `thickness`, `slop`, `attach`. -/
def initAttrs : List String := ["sx", "y", "sh", "thickness", "slop", "attach"]

/-- Reading an instance attribute: `none` models Python's `AttributeError`
for a name never assigned. -/
def readAttr (env : List String) (a : String) : Option Unit :=
  if a ∈ env then some () else none

/-- `create_tray`: its first statements read `self.pitch`, `self.x`,
`self.y`, `self.m`, `self.h`, `self.thickness` and later `self.bottom_edge`;
the drawing it would then do is irrelevant here, the model records only
whether every attribute read succeeds. -/
def create_tray (env : List String) : Option Unit := do
  _ ← readAttr env "pitch"
  _ ← readAttr env "x"
  _ ← readAttr env "y"
  _ ← readAttr env "m"
  _ ← readAttr env "h"
  _ ← readAttr env "thickness"
  _ ← readAttr env "bottom_edge"
  some ()

/-- Spec-side comparison definition: the distinct values of a list in
first-occurrence order ("duplicates collapse to one template"), written to
mirror the spec's words rather than the source's dict-as-set idiom. -/
def specDistinctAux : List ℚ → List ℚ → List ℚ
  | [], _ => []
  | v :: vs, seen =>
    if v ∈ seen then specDistinctAux vs seen
    else v :: specDistinctAux vs (v :: seen)

/-- Spec-side comparison definition: distinct values of `l`, first occurrence
first. -/
def specDistinct (l : List ℚ) : List ℚ := specDistinctAux l []

/-- The worked example of the spec:
`sx=[100,150], y=300, sh=[80,80,80], thickness=4, slop=0.5, attach=25`. -/
def exSpec : EnclosureSpec :=
  { sx := [100, 150], y := 300, sh := [80, 80, 80], thickness := 4,
    slop := 1/2, attach := 25 }

/-- The spec's invalid case: `attach=25, y=20` (other fields arbitrary valid). -/
def badSpec : EnclosureSpec :=
  { sx := [100], y := 20, sh := [80, 80], thickness := 4,
    slop := 1/2, attach := 25 }

/-! ## Helper lemmas -/

/-- Length of the back-wall hole loop output. -/
theorem backWallHolesGo_length (t slop h : ℚ) :
    ∀ (ws : List ℚ) (pos : ℚ), (backWallHolesGo t slop h pos ws).length = ws.length
  | [], _ => rfl
  | w :: ws, pos => by
    simp [backWallHolesGo, backWallHolesGo_length t slop h ws]

/-- Closed form for the i-th hole of the back-wall hole loop. -/
theorem backWallHolesGo_get (t slop h : ℚ) :
    ∀ (ws : List ℚ) (pos : ℚ) (i : ℕ), i < ws.length →
      (backWallHolesGo t slop h pos ws)[i]? =
        some (Cutout.fingerHoles
          (pos + (ws.take (i+1)).sum + ((i : ℚ)+1)*(3*t+2*slop)) 0 h 90)
  | [], _, i, hi => by simp at hi
  | w :: ws, pos, 0, _ => by
    simp [backWallHolesGo, List.getElem?_cons_zero]
    ring
  | w :: ws, pos, i+1, hi => by
    have ih := backWallHolesGo_get t slop h ws (pos + (t + 2*t + 2*slop + w)) i
      (by simpa using hi)
    simp [backWallHolesGo, ih, List.take_succ_cons]
    ring

/-- `take` of `dropLast` agrees with `take` inside the list. -/
theorem take_dropLast_eq {α : Type} (l : List α) (n : ℕ) (hn : n ≤ l.length - 1) :
    l.dropLast.take n = l.take n := by
  rw [List.dropLast_eq_take, List.take_take, Nat.min_eq_left hn]

/-- `create_back_wall_holes` emits `|sx| - 1` finger-hole lines. -/
theorem create_back_wall_holes_length (sx sh : List ℚ) (h slop t : ℚ) :
    (create_back_wall_holes sx sh h slop t).length = sx.length - 1 := by
  rw [create_back_wall_holes, backWallHolesGo_length, List.length_dropLast]

/-- Closed form for the i-th back-wall hole position:
cumulative width plus per-boundary allowance, centered by `-t/2`. -/
theorem create_back_wall_holes_get (sx sh : List ℚ) (h slop t : ℚ) (i : ℕ)
    (hi : i < sx.length - 1) :
    (create_back_wall_holes sx sh h slop t)[i]? =
      some (Cutout.fingerHoles
        ((sx.take (i+1)).sum + ((i : ℚ)+1)*(3*t+2*slop) - t/2) 0 h 90) := by
  have hlen : i < sx.dropLast.length := by simpa using hi
  rw [create_back_wall_holes, backWallHolesGo_get t slop h sx.dropLast (-(t/2)) i hlen,
    take_dropLast_eq sx (i+1) (by omega)]
  simp only [Option.some.injEq, Cutout.fingerHoles.injEq, and_true, true_and,
    eq_self_iff_true]
  ring

/-- Length of the slider-slot loop output. -/
theorem sliderCutGo_length (t y attach slop : ℚ) :
    ∀ (hs : List ℚ) (pos : ℚ), (sliderCutGo t y attach slop pos hs).length = hs.length
  | [], _ => rfl
  | hgt :: hs, pos => by
    simp [sliderCutGo, sliderCutGo_length t y attach slop hs]

/-- Closed form for the i-th slot of the slider-slot loop. -/
theorem sliderCutGo_get (t y attach slop : ℚ) :
    ∀ (hs : List ℚ) (pos : ℚ) (i : ℕ), i < hs.length →
      (sliderCutGo t y attach slop pos hs)[i]? =
        some (Cutout.rectHole 0
          (pos + (hs.take (i+1)).sum + ((i : ℚ)+1)*t - t/2)
          (y - attach) (t + slop) false)
  | [], _, i, hi => by simp at hi
  | hgt :: hs, pos, 0, _ => by
    simp [sliderCutGo, List.getElem?_cons_zero]
  | hgt :: hs, pos, i+1, hi => by
    have ih := sliderCutGo_get t y attach slop hs (pos + hgt + t) i (by simpa using hi)
    simp [sliderCutGo, ih, List.take_succ_cons]
    ring

/-- `slider_cutout` emits `|sh| - 1` slots. -/
theorem slider_cutout_length (sh : List ℚ) (t y attach slop : ℚ) :
    (slider_cutout sh t y attach slop).length = sh.length - 1 := by
  rw [slider_cutout, sliderCutGo_length, List.length_dropLast]

/-- Closed form for the i-th slider slot. -/
theorem slider_cutout_get (sh : List ℚ) (t y attach slop : ℚ) (i : ℕ)
    (hi : i < sh.length - 1) :
    (slider_cutout sh t y attach slop)[i]? =
      some (Cutout.rectHole 0 ((sh.take (i+1)).sum + ((i : ℚ)+1)*t - t/2)
        (y - attach) (t + slop) false) := by
  have hlen : i < sh.dropLast.length := by simpa using hi
  rw [slider_cutout, sliderCutGo_get t y attach slop sh.dropLast 0 i hlen,
    take_dropLast_eq sh (i+1) (by omega)]
  simp only [Option.some.injEq, Cutout.rectHole.injEq, and_true, true_and,
    eq_self_iff_true]
  ring

/-- Membership in the spec-side distinct list. -/
theorem specDistinctAux_mem (a : ℚ) :
    ∀ (l seen : List ℚ), a ∈ specDistinctAux l seen ↔ (a ∈ l ∧ a ∉ seen)
  | [], seen => by simp [specDistinctAux]
  | v :: vs, seen => by
    rw [specDistinctAux]
    by_cases hv : v ∈ seen
    · rw [if_pos hv, specDistinctAux_mem a vs seen]
      by_cases hav : a = v
      · subst hav; simp [hv]
      · simp [hav]
    · rw [if_neg hv]
      by_cases hav : a = v
      · subst hav; simp [hv, specDistinctAux_mem a vs (a :: seen)]
      · simp [hav, specDistinctAux_mem a vs (v :: seen)]

/-- The spec-side distinct list has no duplicates. -/
theorem specDistinctAux_nodup : ∀ (l seen : List ℚ), (specDistinctAux l seen).Nodup
  | [], _ => List.nodup_nil
  | v :: vs, seen => by
    rw [specDistinctAux]
    by_cases hv : v ∈ seen
    · rw [if_pos hv]; exact specDistinctAux_nodup vs seen
    · rw [if_neg hv, List.nodup_cons]
      refine ⟨fun hmem => ?_, specDistinctAux_nodup vs (v :: seen)⟩
      exact ((specDistinctAux_mem v vs (v :: seen)).1 hmem).2 (List.mem_cons_self v seen)

/-- The spec-side distinct list has the same elements as the original. -/
theorem specDistinct_mem (a : ℚ) (l : List ℚ) : a ∈ specDistinct l ↔ a ∈ l := by
  simp [specDistinct, specDistinctAux_mem]

/-- The spec-side distinct list counts the distinct values. -/
theorem specDistinct_length (l : List ℚ) : (specDistinct l).length = l.toFinset.card := by
  have hnd : (specDistinct l).Nodup := specDistinctAux_nodup l []
  have hfin : (specDistinct l).toFinset = l.toFinset := by
    ext a
    simp [List.mem_toFinset, specDistinct_mem]
  rw [← hfin, List.toFinset_card_of_nodup hnd]

/-- The shelf loop emits exactly the map of `shelfTemplate` over the distinct
widths in first-occurrence order. -/
theorem shelfPanels_eq_map (s : EnclosureSpec) :
    ∀ (l seen : List ℚ), shelfPanels s l seen = (specDistinctAux l seen).map (shelfTemplate s)
  | [], _ => rfl
  | v :: vs, seen => by
    rw [shelfPanels, specDistinctAux]
    by_cases hv : v ∈ seen
    · rw [if_pos hv, if_pos hv, shelfPanels_eq_map s vs seen]
    · rw [if_neg hv, if_neg hv, List.map_cons, shelfPanels_eq_map s vs (v :: seen)]

/-! ## Claim theorems -/

/-- Claim C1: for every spec the derived inner width equals
`sum(sx) + 2*(thickness+slop) + (|sx|-1)*(3*thickness+2*slop)` and the derived
inner height equals `sum(sh) + (|sh|-1)*thickness`; for the worked example
(`sx=[100,150], sh=[80,80,80], thickness=4, slop=0.5`) the inner height is 248
and the inner width is 272. -/
theorem claim_C1_inner_dimensions :
    (∀ s : EnclosureSpec,
      inner_x s = s.sx.sum + 2*(s.thickness + s.slop)
        + ((s.sx.length : ℚ) - 1)*(3*s.thickness + 2*s.slop) ∧
      inner_h s = s.sh.sum + ((s.sh.length : ℚ) - 1)*s.thickness) ∧
    inner_h exSpec = 248 ∧ inner_x exSpec = 272 := by
  refine ⟨fun s => ⟨rfl, rfl⟩, ?_, ?_⟩
  · norm_num [inner_h, exSpec]
  · norm_num [inner_x, exSpec]

/-- Claim C2 as stated is false at the worked example: the single back-wall
divider-anchor hole is emitted at x = 111, not at the claimed
`100 + (3*4 + 2*0.5) = 113`. -/
theorem claim_C2_counterexample :
    create_back_wall_holes exSpec.sx exSpec.sh 248 exSpec.slop exSpec.thickness =
      [Cutout.fingerHoles 111 0 248 90] ∧
    (111 : ℚ) ≠ 100 + (3*4 + 2*(1/2)) := by
  constructor
  · norm_num [exSpec, create_back_wall_holes, backWallHolesGo]
  · norm_num

/-- Claim C2 amended: the back wall carries one divider-anchor finger-hole
line per internal compartment boundary, the i-th at position
`sum(sx[0..i]) + (i+1)*(3*thickness+2*slop) - thickness/2` — the claimed
cumulative formula shifted back by half a thickness so the line sits under
the middle of the joint (111, not 113, in the worked example). -/
theorem claim_C2_amended (sx sh : List ℚ) (h slop t : ℚ) (i : ℕ)
    (hi : i < sx.length - 1) :
    (create_back_wall_holes sx sh h slop t).length = sx.length - 1 ∧
    (create_back_wall_holes sx sh h slop t)[i]? =
      some (Cutout.fingerHoles
        ((sx.take (i+1)).sum + ((i : ℚ)+1)*(3*t+2*slop) - t/2) 0 h 90) :=
  ⟨create_back_wall_holes_length sx sh h slop t,
   create_back_wall_holes_get sx sh h slop t i hi⟩

/-- Witness for the amended C2: the worked example, boundary 0. -/
theorem claim_C2_amended_witness :
    (create_back_wall_holes [100, 150] [80, 80, 80] 248 (1/2) 4).length =
      ([100, 150] : List ℚ).length - 1 ∧
    (create_back_wall_holes [100, 150] [80, 80, 80] 248 (1/2) 4)[0]? =
      some (Cutout.fingerHoles
        ((([100, 150] : List ℚ).take 1).sum + (((0 : ℕ) : ℚ)+1)*(3*4+2*(1/2)) - 4/2)
        0 248 90) :=
  claim_C2_amended [100, 150] [80, 80, 80] 248 (1/2) 4 0 (by simp)

/-- Claim C3: the spec demands an invalid-spec error (for empty `sx`/`sh`,
non-positive dimensions, or `attach >= y`) before any panel is emitted; the
code performs no validation at all.  At the spec's own invalid case
`attach = 25, y = 20`, `create_outer_box` emits a full list of 8 panels and
the slider wall's slot is a rectangular hole of negative width
`y - attach = -5`. -/
theorem claim_C3_no_validation :
    (create_outer_box badSpec).length = 8 ∧
    slider_cutout badSpec.sh badSpec.thickness badSpec.y badSpec.attach badSpec.slop =
      [Cutout.rectHole 0 82 (20 - 25) (9/2) false] ∧
    (20 - 25 : ℚ) < 0 := by
  refine ⟨?_, ?_, by norm_num⟩
  · norm_num [create_outer_box, shelfPanels, badSpec]
    omega
  · norm_num [badSpec, slider_cutout, sliderCutGo]

/-- Claim C4: each slider wall receives exactly `|sh|-1` slots, one per
internal boundary between adjacent shelf bands (the last band gets no
trailing slot), the i-th at cumulative offset `sum(sh[0..i]) + (i+1)*thickness`
(the emitted hole centered there, i.e. at that offset minus `thickness/2`),
spanning from the front edge `x = 0` over width `y - attach`, with thickness
`thickness + slop`; in the worked example the slots sit at cumulative offsets
84 and 168, span 0 to 275, and are 4.5 thick. -/
theorem claim_C4_slider_slots (sh : List ℚ) (t y attach slop : ℚ) (i : ℕ)
    (hi : i < sh.length - 1) :
    (slider_cutout sh t y attach slop).length = sh.length - 1 ∧
    (slider_cutout sh t y attach slop)[i]? =
      some (Cutout.rectHole 0 ((sh.take (i+1)).sum + ((i : ℚ)+1)*t - t/2)
        (y - attach) (t + slop) false) ∧
    slider_cutout [80, 80, 80] 4 300 25 (1/2) =
      [Cutout.rectHole 0 (84 - 4/2) (300 - 25) (4 + 1/2) false,
       Cutout.rectHole 0 (168 - 4/2) (300 - 25) (4 + 1/2) false] := by
  refine ⟨slider_cutout_length sh t y attach slop,
    slider_cutout_get sh t y attach slop i hi, ?_⟩
  norm_num [slider_cutout, sliderCutGo]

/-- Witness for C4: the worked example, boundary 0. -/
theorem claim_C4_slider_slots_witness :
    (slider_cutout [80, 80, 80] 4 300 25 (1/2)).length =
      ([80, 80, 80] : List ℚ).length - 1 ∧
    (slider_cutout [80, 80, 80] 4 300 25 (1/2))[0]? =
      some (Cutout.rectHole 0 ((([80, 80, 80] : List ℚ).take 1).sum + (((0 : ℕ) : ℚ)+1)*4 - 4/2)
        (300 - 25) (4 + 1/2) false) ∧
    slider_cutout [80, 80, 80] 4 300 25 (1/2) =
      [Cutout.rectHole 0 (84 - 4/2) (300 - 25) (4 + 1/2) false,
       Cutout.rectHole 0 (168 - 4/2) (300 - 25) (4 + 1/2) false] :=
  claim_C4_slider_slots [80, 80, 80] 4 300 25 (1/2) 0 (by simp)

/-- Claim C5 as stated is false at the worked example: 12 panels are emitted,
but the claimed count `2+2+(|sx|-1)+(2+2*(|sx|-1))+|distinct sx|` evaluates
to 11 — the outer shell alone contributes five panels (left, back, right,
top, bottom), not four. -/
theorem claim_C5_counterexample :
    (create_outer_box exSpec).length = 12 ∧
    2 + 2 + (exSpec.sx.length - 1) + (2 + 2*(exSpec.sx.length - 1))
      + exSpec.sx.toFinset.card = 11 ∧
    (12 : ℕ) ≠ 11 := by
  refine ⟨?_, ?_, by norm_num⟩
  · norm_num [create_outer_box, shelfPanels, exSpec]
    omega
  · norm_num [exSpec]

/-- Claim C5 amended: every spec with at least one compartment (the spec's
own domain, `|sx| >= 1`) yields exactly
`5 + (|sx|-1) + (2 + 2*(|sx|-1)) + |distinct sx|` panels — five outer walls
(left, back, right, top, bottom), the inner divider walls, the slider walls,
and one shelf template per distinct compartment width. -/
theorem claim_C5_amended (s : EnclosureSpec) (hsx : 1 ≤ s.sx.length) :
    (create_outer_box s).length =
      5 + (s.sx.length - 1) + (2 + 2*(s.sx.length - 1)) + s.sx.toFinset.card := by
  have hshelf : (shelfPanels s s.sx []).length = s.sx.toFinset.card := by
    rw [shelfPanels_eq_map, List.length_map]
    exact specDistinct_length s.sx
  have hslider : (2 + ((s.sx.length : ℤ) - 1)*2).toNat = 2 + 2*(s.sx.length - 1) := by
    omega
  rw [create_outer_box]
  simp [List.length_append, hshelf, hslider]
  omega

/-- Witness for the amended C5: the worked example has two compartments,
hence 5 + 1 + 4 + 2 = 12 panels. -/
theorem claim_C5_amended_witness :
    (create_outer_box exSpec).length =
      5 + (exSpec.sx.length - 1) + (2 + 2*(exSpec.sx.length - 1))
        + exSpec.sx.toFinset.card :=
  claim_C5_amended exSpec (by simp [exSpec])

/-- Claim C6: with positive thickness, nonnegative slop and positive
compartment widths, the divider-anchor hole positions are strictly
increasing left to right, and adjacent holes are separated by at least the
full width of the compartment lying between them. -/
theorem claim_C6_holes_ordered (sx sh : List ℚ) (h slop t : ℚ)
    (ht : 0 < t) (hslop : 0 ≤ slop) (hw : ∀ w ∈ sx, 0 < w)
    (i : ℕ) (hi : i + 1 < sx.length - 1) (c1 c2 : Cutout)
    (h1 : (create_back_wall_holes sx sh h slop t)[i]? = some c1)
    (h2 : (create_back_wall_holes sx sh h slop t)[i+1]? = some c2) :
    cutoutX c1 < cutoutX c2 ∧ sx.getD (i+1) 0 ≤ cutoutX c2 - cutoutX c1 := by
  have hlt : i + 1 < sx.length := by omega
  have e1 := create_back_wall_holes_get sx sh h slop t i (by omega)
  have e2 := create_back_wall_holes_get sx sh h slop t (i+1) hi
  rw [h1] at e1
  rw [h2] at e2
  obtain rfl := Option.some.inj e1
  obtain rfl := Option.some.inj e2
  simp only [cutoutX]
  have hsum := List.sum_take_succ sx (i+1) hlt
  have hget : sx.getD (i+1) 0 = sx[i+1] := List.getD_eq_getElem sx 0 hlt
  have hwpos : 0 < sx[i+1] := hw _ (List.getElem_mem hlt)
  have ha : 0 < 3*t + 2*slop := by linarith
  rw [hget]
  push_cast
  rw [hsum]
  constructor <;> nlinarith [hwpos, ha]

/-- Witness for C6: three compartments 100, 150, 200 — holes at 111 and 274,
separated by more than the middle compartment width 150. -/
theorem claim_C6_holes_ordered_witness :
    cutoutX (Cutout.fingerHoles 111 0 248 90) <
      cutoutX (Cutout.fingerHoles 274 0 248 90) ∧
    ([100, 150, 200] : List ℚ).getD 1 0 ≤
      cutoutX (Cutout.fingerHoles 274 0 248 90) -
        cutoutX (Cutout.fingerHoles 111 0 248 90) :=
  claim_C6_holes_ordered [100, 150, 200] [80] 248 (1/2) 4 (by norm_num)
    (by norm_num)
    (by intro w hw; simp at hw; rcases hw with rfl | rfl | rfl <;> norm_num)
    0 (by simp)
    (Cutout.fingerHoles 111 0 248 90) (Cutout.fingerHoles 274 0 248 90)
    (by norm_num [create_back_wall_holes, backWallHolesGo, List.getElem?_cons_zero])
    (by norm_num [create_back_wall_holes, backWallHolesGo, List.getElem?_cons_zero])

/-- Claim C7: exactly one shelf template panel per distinct width value of
`sx` (duplicates collapse, first-occurrence order), each of panel width `y`
and panel height equal to the compartment width adjusted by
`2*(thickness - slop)`. -/
theorem claim_C7_shelf_templates (s : EnclosureSpec) :
    (shelfPanels s s.sx []).map Panel.height =
      (specDistinct s.sx).map (fun v => v + 2*(s.thickness - s.slop)) ∧
    (shelfPanels s s.sx []).map Panel.width =
      (specDistinct s.sx).map (fun _ => s.y) ∧
    (specDistinct s.sx).Nodup ∧
    (∀ v, v ∈ specDistinct s.sx ↔ v ∈ s.sx) ∧
    (shelfPanels s s.sx []).length = s.sx.toFinset.card := by
  have hmap := shelfPanels_eq_map s s.sx []
  refine ⟨?_, ?_, specDistinctAux_nodup s.sx [],
    fun v => specDistinct_mem v s.sx, ?_⟩
  · rw [hmap, List.map_map]
    refine List.map_congr_left fun v _ => ?_
    simp [shelfTemplate, shelfPanels]
    ring
  · rw [hmap, List.map_map]
    exact List.map_congr_left fun v _ => rfl
  · rw [hmap, List.length_map]
    exact specDistinct_length s.sx

/-- Claim C8 as stated is false at the worked example: the first shelf panel
(compartment width 100) carries its second insertion-tab cutout at
`z = 100 + 2*4 - 2*0.5 = 107`, which is the shelf panel height, not the
compartment width 100. -/
theorem claim_C8_counterexample :
    shelfPanels exSpec exSpec.sx [] =
      [shelfTemplate exSpec 100, shelfTemplate exSpec 150] ∧
    (shelfTemplate exSpec 100).cutouts =
      [Cutout.rectHole 275 0 25 (9/2) false,
       Cutout.rectHole 275 107 25 (9/2) false] ∧
    (107 : ℚ) ≠ 100 := by
  refine ⟨?_, ?_, by norm_num⟩
  · norm_num [shelfPanels, exSpec]
  · norm_num [shelfTemplate, shelf_cutout, exSpec]

/-- Claim C8 amended: every shelf template panel carries exactly two
insertion-tab cutouts, at position 0 and at position equal to the shelf
panel's height (the compartment width adjusted by `2*(thickness - slop)`),
each of width `attach` and thickness `thickness + slop`. -/
theorem claim_C8_amended (s : EnclosureSpec) (p : Panel)
    (hp : p ∈ shelfPanels s s.sx []) :
    p.cutouts =
      [Cutout.rectHole (s.y - s.attach) 0 s.attach (s.thickness + s.slop) false,
       Cutout.rectHole (s.y - s.attach) p.height s.attach
         (s.thickness + s.slop) false] := by
  rw [shelfPanels_eq_map] at hp
  obtain ⟨v, hv, rfl⟩ := List.mem_map.1 hp
  rfl

/-- Witness for the amended C8: the worked example's 100-wide shelf. -/
theorem claim_C8_amended_witness :
    (shelfTemplate exSpec 100).cutouts =
      [Cutout.rectHole (exSpec.y - exSpec.attach) 0 exSpec.attach
        (exSpec.thickness + exSpec.slop) false,
       Cutout.rectHole (exSpec.y - exSpec.attach) (shelfTemplate exSpec 100).height
        exSpec.attach (exSpec.thickness + exSpec.slop) false] :=
  claim_C8_amended exSpec (shelfTemplate exSpec 100) (by simp [shelfPanels, exSpec])

/-- Claim C9: the computation is a deterministic pure function of the spec —
two invocations with an identical spec produce identical panel lists. -/
theorem claim_C9_deterministic (s1 s2 : EnclosureSpec) (hs : s1 = s2) :
    render s1 = render s2 := by
  rw [hs]

/-- Witness for C9: determinism at the worked example. -/
theorem claim_C9_deterministic_witness : render exSpec = render exSpec :=
  claim_C9_deterministic exSpec exSpec rfl

/-- Claim C10: `render` emits exactly the panels of `create_outer_box` and
nothing else; `create_tray` is not reachable from `render`, and the
attributes it reads (`pitch`, `x`, `m`, `h`, `bottom_edge`) are not among
those the initializer defines, so invoking it fails on its first undefined
attribute read. -/
theorem claim_C10_render_tray :
    (∀ s, render s = create_outer_box s) ∧
    create_tray initAttrs = none ∧
    "pitch" ∉ initAttrs ∧ "m" ∉ initAttrs ∧ "h" ∉ initAttrs ∧
    "x" ∉ initAttrs ∧ "bottom_edge" ∉ initAttrs := by
  refine ⟨fun s => rfl, by decide, by decide, by decide, by decide,
    by decide, by decide⟩
